import Mathlib

/-!
Shallow embedding of the reconciliation core of the `zookeeper-operator`
repository (file `src/manager.rs`, with the `Error` type of `src/lib.rs`),
together with theorems settling the specification claims.

Modelling conventions:
* machine integers: `spec.replicas : i32` is embedded as `Int`;
* timestamps (`chrono::DateTime<Utc>`, `Time`) are opaque and embedded as
  `Nat` / `String`;
* fallible Rust code (`Result<_, Error>`) is embedded as `Except Error _`;
  a Rust panic (`.expect(..)`) is a distinguished `Outcome.aborted` value;
* the Kubernetes backend is an oracle (`Ctx`): each network call's outcome
  is a field of the oracle, and every call the reconciler issues is recorded
  in an explicit `RecEffects` trace in issue order.
-/

/-! ## Data model (src/manager.rs lines 29-56, k8s-openapi types) -/

/-- `ZooKeeperVersion` enum (manager.rs lines 43-51). -/
inductive ZooKeeperVersion where
  | v3_6_2
  | v3_5_8
deriving DecidableEq, Repr

/-- The serde wire rename of each variant (`#[serde(rename = "3.6.2")]` /
`#[serde(rename = "3.5.8")]`, manager.rs lines 46, 49). -/
def ZooKeeperVersion.wireName : ZooKeeperVersion → String
  | .v3_6_2 => "3.6.2"
  | .v3_5_8 => "3.5.8"

/-- The derived `Debug` rendering of each variant: Rust's `derive(Debug)` on a
unit variant prints the variant identifier itself (`v3_6_2` / `v3_5_8`). -/
def ZooKeeperVersion.debugName : ZooKeeperVersion → String
  | .v3_6_2 => "v3_6_2"
  | .v3_5_8 => "v3_5_8"

/-- `ZooKeeperClusterSpec` (manager.rs lines 38-41); `replicas: i32`. -/
structure ZooKeeperClusterSpec where
  version : ZooKeeperVersion
  replicas : Int
deriving DecidableEq, Repr

/-- `ZooKeeperClusterStatus` (manager.rs lines 53-56). -/
structure ZooKeeperClusterStatus where
  is_bad : Bool
deriving DecidableEq, Repr

/-- `OwnerReference` (k8s-openapi `meta/v1`); the fields the program reads or
writes. `OwnerReference::default()` leaves `controller` and
`block_owner_deletion` at `None`. -/
structure OwnerReference where
  api_version : String
  kind : String
  name : String
  uid : String
  controller : Option Bool
  block_owner_deletion : Option Bool
deriving DecidableEq, Repr

/-- `ObjectMeta` (k8s-openapi `meta/v1`); the fields the program reads or
writes. `ns` embeds `namespace`. -/
structure ObjectMeta where
  name : Option String := none
  ns : Option String := none
  uid : Option String := none
  deletion_timestamp : Option String := none
  finalizers : Option (List String) := none
  owner_references : Option (List OwnerReference) := none
  labels : Option (List (String × String)) := none
deriving DecidableEq, Repr

/-- The `ZooKeeperCluster` custom resource (derive on manager.rs lines 29-41). -/
structure ZooKeeperCluster where
  metadata : ObjectMeta
  spec : ZooKeeperClusterSpec
  status : Option ZooKeeperClusterStatus := none
deriving DecidableEq, Repr

/-- `Toleration` (k8s-openapi `core/v1`). -/
structure Toleration where
  effect : Option String
  key : Option String
  operator : Option String
  toleration_seconds : Option Int
  value : Option String
deriving DecidableEq, Repr

/-- `create_tolerations` (manager.rs lines 69-93). -/
def create_tolerations : List Toleration :=
  [ { effect := some ("NoExecute"),
      key := some ("kubernetes.io/arch"),
      operator := some ("Equal"),
      toleration_seconds := none,
      value := some ("stackable-linux") },
    { effect := some ("NoSchedule"),
      key := some ("kubernetes.io/arch"),
      operator := some ("Equal"),
      toleration_seconds := none,
      value := some ("stackable-linux") },
    { effect := some ("NoSchedule"),
      key := some ("node.kubernetes.io/network-unavailable"),
      operator := some ("Exists"),
      toleration_seconds := none,
      value := none } ]

/-- `Container` (k8s-openapi `core/v1`); the fields the program sets. -/
structure Container where
  image : Option String
  name : String
deriving DecidableEq, Repr

/-- `LabelSelector` (k8s-openapi `meta/v1`); the fields the program sets. -/
structure LabelSelector where
  match_labels : Option (List (String × String))
deriving DecidableEq, Repr

/-- `PodAffinityTerm` (k8s-openapi `core/v1`); the fields the program sets. -/
structure PodAffinityTerm where
  label_selector : Option LabelSelector
  topology_key : String
deriving DecidableEq, Repr

/-- `PodAntiAffinity` (k8s-openapi `core/v1`); the fields the program sets. -/
structure PodAntiAffinity where
  required_during_scheduling_ignored_during_execution : Option (List PodAffinityTerm)
deriving DecidableEq, Repr

/-- `Affinity` (k8s-openapi `core/v1`); the fields the program sets. -/
structure Affinity where
  pod_anti_affinity : Option PodAntiAffinity
deriving DecidableEq, Repr

/-- `PodSpec` (k8s-openapi `core/v1`); the fields the program sets. -/
structure PodSpec where
  tolerations : Option (List Toleration)
  containers : List Container
  affinity : Option Affinity
deriving DecidableEq, Repr

/-- `Pod` (k8s-openapi `core/v1`); the fields the program sets. -/
structure Pod where
  metadata : ObjectMeta
  spec : Option PodSpec
deriving DecidableEq, Repr

/-! ## Errors

`manager.rs` imports `Error` with the variants `MissingObjectKey`,
`PodPatchFailed`, `SerializationFailed`, `ZooKeeperClusterPatchFailed`
from the crate root.  `src/lib.rs` declares `SerializationFailed` and
`ZooKeeperClusterPatchFailed` (each carrying only a `source` error and a
backtrace).  The `MissingObjectKey` and `PodPatchFailed` variants are absent
from `src/lib.rs`; their shapes are fixed by their snafu context-selector
call sites in `manager.rs`: `MissingObjectKey { name: ".." }` carries a
`name` field (lines 102-107), and `.context(PodPatchFailed)` (line 211) is a
field-less selector, so `PodPatchFailed` carries only the `source`
`kube::Error` (and backtrace), exactly like `ZooKeeperClusterPatchFailed`.
Backtraces are not modelled; a `kube::Error` / `serde_json::Error` source is
an opaque `String`. -/
inductive Error where
  | ZooKeeperClusterIsBad (info : String)
  | ZooKeeperClusterPatchFailed (source : String)
  | SerializationFailed (source : String)
  | MissingObjectKey (name : String)
  | PodPatchFailed (source : String)
deriving DecidableEq, Repr

/-- `FINALIZER` constant (manager.rs line 95). -/
def FINALIZER : String := "zookeeper.stackable.de/check-stuff"

/-- `FIELD_MANAGER` constant (manager.rs line 96). -/
def FIELD_MANAGER : String := "zookeeper.stackable.de"

/-- `ZooKeeperCluster::API_VERSION` from the `CustomResource` derive with
`group = "zookeeper.stackable.de"`, `version = "v1"` (manager.rs lines 30-36). -/
def ZK_API_VERSION : String := "zookeeper.stackable.de/v1"

/-- `ZooKeeperCluster::KIND` from the `CustomResource` derive. -/
def ZK_KIND : String := "ZooKeeperCluster"

/-- `object_to_owner_reference::<ZooKeeperCluster>` (manager.rs lines 98-110).
The struct literal evaluates `name` before `uid`, so a missing name errors
first; the `uid` selector's message string is `".metadata.backtrace"` in the
source (a typo kept verbatim). -/
def object_to_owner_reference (meta : ObjectMeta) : Except Error OwnerReference :=
  match meta.name with
  | none => .error (.MissingObjectKey (".metadata.name"))
  | some n =>
    match meta.uid with
    | none => .error (.MissingObjectKey (".metadata.backtrace"))
    | some u =>
      .ok { api_version := ZK_API_VERSION, kind := ZK_KIND, name := n, uid := u,
            controller := none, block_owner_deletion := none }

/-! ## Decimal rendering of the replica index

`format!("{}-{}", name, i)` (manager.rs line 160) renders `i : i32` in
decimal.  The loop `0..replicas` only produces non-negative indices, so the
renderer is embedded for `Nat`, fuel-based so that it reduces definitionally. -/

/-- Decimal digit list of `n`, most significant first; `fuel` bounds the
recursion depth (any `fuel > n` is exact). -/
def decCharsAux : Nat → Nat → List Char
  | 0, _ => []
  | fuel + 1, n =>
    if n < 10 then [Nat.digitChar n]
    else decCharsAux fuel (n / 10) ++ [Nat.digitChar (n % 10)]

/-- Decimal digit list of `n`, most significant first. -/
def decChars (n : Nat) : List Char := decCharsAux (n + 1) n

/-- Rust's `Display` rendering of a non-negative machine integer. -/
def natDecimal (n : Nat) : String := ⟨decChars n⟩

/-- Child pod name `format!("{}-{}", name, i)` (manager.rs line 160). -/
def podName (name : String) (i : Nat) : String := name ++ "-" ++ natDecimal i

theorem decCharsAux_congr : ∀ f₁ f₂ n, n < f₁ → n < f₂ →
    decCharsAux f₁ n = decCharsAux f₂ n := by
  intro f₁
  induction f₁ with
  | zero => intro f₂ n h; omega
  | succ f ih =>
    intro f₂ n h₁ h₂
    cases f₂ with
    | zero => omega
    | succ g =>
      show decCharsAux (f + 1) n = decCharsAux (g + 1) n
      unfold decCharsAux
      by_cases hn : n < 10
      · simp [hn]
      · simp only [hn, if_false]
        have hd : n / 10 < n := Nat.div_lt_self (by omega) (by omega)
        rw [ih g (n / 10) (by omega) (by omega)]

theorem decChars_eq (n : Nat) :
    decChars n = if n < 10 then [Nat.digitChar n]
                 else decChars (n / 10) ++ [Nat.digitChar (n % 10)] := by
  unfold decChars
  conv_lhs => unfold decCharsAux
  by_cases hn : n < 10
  · simp [hn]
  · simp only [hn, if_false]
    have hd : n / 10 < n := Nat.div_lt_self (by omega) (by omega)
    rw [decCharsAux_congr n (n / 10 + 1) (n / 10) (by omega) (by omega)]

theorem decChars_ne_nil (n : Nat) : decChars n ≠ [] := by
  rw [decChars_eq]
  by_cases hn : n < 10 <;> simp [hn]

theorem digitChar_inj_fin :
    ∀ a b : Fin 10, Nat.digitChar a.val = Nat.digitChar b.val → a = b := by
  decide

theorem digitChar_inj {a b : Nat} (ha : a < 10) (hb : b < 10)
    (h : Nat.digitChar a = Nat.digitChar b) : a = b := by
  have := digitChar_inj_fin ⟨a, ha⟩ ⟨b, hb⟩ h
  exact congrArg Fin.val this

theorem decChars_injective : ∀ m n, decChars m = decChars n → m = n := by
  intro m
  induction m using Nat.strong_induction_on with
  | _ m ih =>
    intro n h
    rw [decChars_eq m, decChars_eq n] at h
    by_cases hm : m < 10 <;> by_cases hn : n < 10
    · simp only [hm, hn, if_true] at h
      exact digitChar_inj hm hn (List.singleton_injective h)
    · simp only [hm, hn, if_true, if_false] at h
      have := congrArg List.length h
      simp at this
      have hne := decChars_ne_nil (n / 10)
      cases hd : decChars (n / 10) with
      | nil => exact absurd hd hne
      | cons c l => rw [hd] at this; simp at this
    · simp only [hm, hn, if_true, if_false] at h
      have := congrArg List.length h
      simp at this
      have hne := decChars_ne_nil (m / 10)
      cases hd : decChars (m / 10) with
      | nil => exact absurd hd hne
      | cons c l => rw [hd] at this; simp at this
    · simp only [hm, hn, if_false] at h
      have hrev := congrArg List.reverse h
      simp only [List.reverse_append, List.reverse_cons, List.reverse_nil,
        List.nil_append, List.singleton_append, List.cons.injEq] at hrev
      obtain ⟨hdig, htail⟩ := hrev
      have hmod : m % 10 = n % 10 :=
        digitChar_inj (Nat.mod_lt _ (by omega)) (Nat.mod_lt _ (by omega)) hdig

      have hquot : m / 10 = n / 10 := by
        apply ih (m / 10) (Nat.div_lt_self (by omega) (by omega))
        exact List.reverse_injective htail
      omega

theorem natDecimal_injective : ∀ m n, natDecimal m = natDecimal n → m = n := by
  intro m n h
  apply decChars_injective
  exact congrArg String.data h

theorem podName_inj (name : String) : ∀ i j, podName name i = podName name j → i = j := by
  intro i j h
  apply natDecimal_injective
  have hd := congrArg String.data h
  simp only [podName, String.data_append] at hd
  have := List.append_cancel_left hd
  exact String.ext this

/-! ## Pod construction (manager.rs lines 156-197) -/

/-- The `Pod` struct literal of manager.rs lines 161-197, as a function of the
pod name, the shared label map, the version and the (already constructed)
owner reference; the literal overrides `controller` to `Some(true)` on top of
the base reference returned by `object_to_owner_reference`. -/
def make_pod (pod_name : String) (labels : List (String × String))
    (version : ZooKeeperVersion) (oref : OwnerReference) : Pod :=
  { metadata :=
      { name := some pod_name,
        owner_references := some [{ oref with controller := some true }],
        labels := some labels },
    spec := some
      { tolerations := some create_tolerations,
        containers :=
          [ { image := some ("stackable/zookeeper:" ++ version.debugName),
              name := "zookeeper" } ],
        affinity := some
          { pod_anti_affinity := some
              { required_during_scheduling_ignored_during_execution := some
                  [ { label_selector := some { match_labels := some labels },
                      topology_key := "kubernetes.io/hostname" } ] } } } }

/-! ## Reconciler embedding -/

/-- Result of one reconcile task: the returned value, the propagated error, or
a Rust panic (`.expect`), which aborts the task without producing a value. -/
inductive Outcome (α : Type) where
  | ok (a : α)
  | err (e : Error)
  | aborted (msg : String)
deriving DecidableEq, Repr

/-- `ReconcilerAction` (kube-runtime); `requeue_after` in seconds. -/
structure ReconcilerAction where
  requeue_after : Option Nat
deriving DecidableEq, Repr

/-- Backend oracle for one reconcile invocation: the clock value `Utc::now()`
returns, and the outcome of each network call the reconciler may issue
(`Except` errors are the opaque `kube::Error` sources). -/
structure Ctx where
  now : Nat
  status_patch_result : Except String Unit
  pod_patch_result : String → Except String Unit
  meta_patch_result : Except String Unit
deriving Inhabited

/-- Trace of the externally visible actions of one reconcile invocation, in
issue order within each channel: writes of `State.last_event`, status
sub-resource patches `(resource name, status)`, child pod applies
`(pod name, pod)`, metadata patches `(resource name, persisted finalizers)`,
and `handled_events` counter increments. -/
structure RecEffects where
  last_event_writes : List Nat := []
  status_patches : List (String × ZooKeeperClusterStatus) := []
  pod_applies : List (String × Pod) := []
  meta_patches : List (String × List String) := []
  counter_incs : Nat := 0
deriving DecidableEq, Repr

/-- `handle_deletion` (manager.rs lines 226-285).  The first statement of the
body is `return Ok(false);` (line 232), so the function unconditionally
reports "not deleting" with no I/O; the entire finalizer state machine below
it (lines 233-284) is unreachable dead code, embedded separately as
`handle_deletion_dead_code`.  The second component is the list of metadata
patches issued (always empty here). -/
def handle_deletion (_zk : ZooKeeperCluster) :
    Except Error Bool × List (String × List String) :=
  (.ok false, [])

/-- `Vec::swap_remove(i)`: replace element `i` with the last element and drop
the last element (used at manager.rs line 249, in dead code). -/
def swapRemove (l : List String) (i : Nat) : List String :=
  match l.getLast? with
  | none => l
  | some last => (l.set i last).dropLast

/-- The unreachable body of `handle_deletion` (manager.rs lines 233-284): the
finalizer state machine that the `return Ok(false)` short-circuit skips.
Given the resource and the metadata-patch oracle, returns the
`Result<bool>` the dead code would return and the metadata patches it would
issue. -/
def handle_deletion_dead_code (ctx : Ctx) (zk : ZooKeeperCluster) (name : String) :
    Except Error Bool × List (String × List String) :=
  match zk.metadata.deletion_timestamp with
  | some _ =>
    match zk.metadata.finalizers with
    | some finalizers =>
      match finalizers.findIdx? (fun f => f = FINALIZER) with
      | some index =>
        let finalizers' := swapRemove finalizers index
        match ctx.meta_patch_result with
        | .error e => (.error (.ZooKeeperClusterPatchFailed e), [(name, finalizers')])
        | .ok _ => (.ok true, [(name, finalizers')])
      | none => (.ok false, [])
    | none => (.ok false, [])
  | none =>
    let finalizers := zk.metadata.finalizers.getD []
    if FINALIZER ∈ finalizers then (.ok false, [])
    else
      let finalizers' := finalizers ++ [FINALIZER]
      match ctx.meta_patch_result with
      | .error e => (.error (.ZooKeeperClusterPatchFailed e), [(name, finalizers')])
      | .ok _ => (.ok false, [(name, finalizers')])

/-- The child-apply loop `for i in 0..zk_cluster.spec.replicas` (manager.rs
lines 159-212), over the list of loop indices.  For each index: build the pod
name, construct the owner reference (`?` propagates its error before any
patch for that index), build the pod, then issue the apply; a failed apply is
recorded (the call was issued) and aborts the loop with
`PodPatchFailed`. -/
def apply_pods (patch : String → Except String Unit) (meta : ObjectMeta)
    (name : String) (labels : List (String × String)) (version : ZooKeeperVersion) :
    List Nat → List (String × Pod) × Except Error Unit
  | [] => ([], .ok ())
  | i :: rest =>
    let pod_name := podName name i
    match object_to_owner_reference meta with
    | .error e => ([], .error e)
    | .ok oref =>
      let pod := make_pod pod_name labels version oref
      match patch pod_name with
      | .error e => ([(pod_name, pod)], .error (.PodPatchFailed e))
      | .ok _ =>
        let (rest_applies, res) := apply_pods patch meta name labels version rest
        ((pod_name, pod) :: rest_applies, res)

/-- `reconcile` (manager.rs lines 117-222).  Order of operations follows the
source: write `state.last_event = now` (line 123); read the resource name
(`Meta::name` panics when absent) and namespace (`.expect("ZooKeeperCluster
is namespaced")`, line 125); call `handle_deletion` (line 134, short-circuited
to `Ok(false)`); patch the status sub-resource with `is_bad = false` (lines
144-154); apply one pod per index in `0..replicas` (lines 159-212); increment
`handled_events` (line 216); return requeue after `3600 / 2` seconds. -/
def reconcile (ctx : Ctx) (zk : ZooKeeperCluster) :
    Outcome ReconcilerAction × RecEffects :=
  let eff0 : RecEffects := { last_event_writes := [ctx.now] }
  match zk.metadata.name with
  | none => (.aborted ("kube objects must have names"), eff0)
  | some name =>
    match zk.metadata.ns with
    | none => (.aborted ("ZooKeeperCluster is namespaced"), eff0)
    | some _ =>
      match handle_deletion zk with
      | (.error e, mp) => (.err e, { eff0 with meta_patches := mp })
      | (.ok true, mp) =>
        (.ok { requeue_after := none }, { eff0 with meta_patches := mp })
      | (.ok false, mp) =>
        let eff1 := { eff0 with
                      meta_patches := mp
                      status_patches := [(name, { is_bad := false })] }
        match ctx.status_patch_result with
        | .error e => (.err (.ZooKeeperClusterPatchFailed e), eff1)
        | .ok _ =>
          let labels := [("zookeeper-name", name)]
          let pr :=
            apply_pods ctx.pod_patch_result zk.metadata name labels
              zk.spec.version (List.range zk.spec.replicas.toNat)
          let eff2 := { eff1 with pod_applies := pr.1 }
          match pr.2 with
          | .error e => (.err e, eff2)
          | .ok _ =>
            (.ok { requeue_after := some (3600 / 2) },
             { eff2 with counter_incs := 1 })

/-- `error_policy` (manager.rs lines 287-292). -/
def error_policy (_error : Error) : ReconcilerAction :=
  { requeue_after := some 360 }

/-! ## Serialization (`serde_json::to_vec`, manager.rs lines 144-149, 208)

A by-hand model of the `serde_json` rendering of the structures the program
serializes: JSON object fields in the order the serde implementations emit
them, `None` fields skipped, no whitespace.  String escaping is not modelled
(none of the program's strings need it). -/

def jstr (s : String) : String := "\"" ++ s ++ "\""

def jfield (k v : String) : String := jstr k ++ ":" ++ v

def jobj (fields : List String) : String :=
  "\x7b" ++ String.intercalate "," fields ++ "\x7d"

def jarr (elems : List String) : String :=
  "[" ++ String.intercalate "," elems ++ "]"

def jbool : Bool → String
  | true => "true"
  | false => "false"

def jfieldOpt (k : String) : Option String → List String
  | none => []
  | some v => [jfield k v]

def serializeLabels (labels : List (String × String)) : String :=
  jobj (labels.map (fun kv => jfield kv.1 (jstr kv.2)))

def serializeOwnerReference (o : OwnerReference) : String :=
  jobj ([jfield ("apiVersion") (jstr o.api_version)]
    ++ jfieldOpt ("blockOwnerDeletion") (o.block_owner_deletion.map jbool)
    ++ jfieldOpt ("controller") (o.controller.map jbool)
    ++ [jfield ("kind") (jstr o.kind),
        jfield ("name") (jstr o.name),
        jfield ("uid") (jstr o.uid)])

def serializeObjectMeta (m : ObjectMeta) : String :=
  jobj (jfieldOpt ("deletionTimestamp") (m.deletion_timestamp.map jstr)
    ++ jfieldOpt ("finalizers") (m.finalizers.map (fun fs => jarr (fs.map jstr)))
    ++ jfieldOpt ("labels") (m.labels.map serializeLabels)
    ++ jfieldOpt ("name") (m.name.map jstr)
    ++ jfieldOpt ("namespace") (m.ns.map jstr)
    ++ jfieldOpt ("ownerReferences")
         (m.owner_references.map (fun os => jarr (os.map serializeOwnerReference)))
    ++ jfieldOpt ("uid") (m.uid.map jstr))

def serializeToleration (t : Toleration) : String :=
  jobj (jfieldOpt ("effect") (t.effect.map jstr)
    ++ jfieldOpt ("key") (t.key.map jstr)
    ++ jfieldOpt ("operator") (t.operator.map jstr)
    ++ jfieldOpt ("tolerationSeconds") (t.toleration_seconds.map (fun n => toString n))
    ++ jfieldOpt ("value") (t.value.map jstr))

def serializeContainer (c : Container) : String :=
  jobj (jfieldOpt ("image") (c.image.map jstr)
    ++ [jfield ("name") (jstr c.name)])

def serializeLabelSelector (s : LabelSelector) : String :=
  jobj (jfieldOpt ("matchLabels") (s.match_labels.map serializeLabels))

def serializePodAffinityTerm (t : PodAffinityTerm) : String :=
  jobj (jfieldOpt ("labelSelector") (t.label_selector.map serializeLabelSelector)
    ++ [jfield ("topologyKey") (jstr t.topology_key)])

def serializePodAntiAffinity (a : PodAntiAffinity) : String :=
  jobj (jfieldOpt ("requiredDuringSchedulingIgnoredDuringExecution")
    (a.required_during_scheduling_ignored_during_execution.map
      (fun ts => jarr (ts.map serializePodAffinityTerm))))

def serializeAffinity (a : Affinity) : String :=
  jobj (jfieldOpt ("podAntiAffinity") (a.pod_anti_affinity.map serializePodAntiAffinity))

def serializePodSpec (s : PodSpec) : String :=
  jobj (jfieldOpt ("affinity") (s.affinity.map serializeAffinity)
    ++ [jfield ("containers") (jarr (s.containers.map serializeContainer))]
    ++ jfieldOpt ("tolerations") (s.tolerations.map (fun ts => jarr (ts.map serializeToleration))))

/-- `serde_json::to_vec(&pod)` (manager.rs line 208); the k8s-openapi `Pod`
serializer emits its constant `apiVersion`/`kind` alongside the set fields. -/
def serializePod (p : Pod) : String :=
  jobj ([jfield ("apiVersion") (jstr ("v1")),
         jfield ("kind") (jstr ("Pod")),
         jfield ("metadata") (serializeObjectMeta p.metadata)]
    ++ jfieldOpt ("spec") (p.spec.map serializePodSpec))

/-- `serde_json::to_vec(&json!({"status": ..}))` (manager.rs lines 144-149). -/
def serializeStatusBody (s : ZooKeeperClusterStatus) : String :=
  jobj ([jfield ("status") (jobj ([jfield ("is_bad") (jbool s.is_bad)]))])

/-! ## Desired-State Compute as a pure function (spec section 4.3)

The child derivation inlined in the reconcile loop (manager.rs lines
156-197), factored over exactly the inputs the spec names:
`(resourceName, namespace, version, replicaCount, owner name and UID)`.
The namespace selects the API endpoint the applies are sent to but does not
occur in any child specification, matching the source, where `ns` is used
only to construct `Api::namespaced`. -/
structure DesiredInputs where
  name : String
  ns : String
  version : ZooKeeperVersion
  replicaCount : Int
  owner_name : String
  owner_uid : String
deriving DecidableEq, Repr

/-- The base owner reference `object_to_owner_reference` yields for an owner
with the given name and UID. -/
def baseOwnerRef (owner_name owner_uid : String) : OwnerReference :=
  { api_version := ZK_API_VERSION, kind := ZK_KIND, name := owner_name,
    uid := owner_uid, controller := none, block_owner_deletion := none }

/-- The ordered sequence of named child specifications, one per index in
`[0, replicaCount)` (empty when `replicaCount ≤ 0`, matching the Rust range
`0..replicas`). -/
def desired_pods (inp : DesiredInputs) : List (String × Pod) :=
  (List.range inp.replicaCount.toNat).map (fun i =>
    (podName inp.name i,
     make_pod (podName inp.name i) [("zookeeper-name", inp.name)] inp.version
       (baseOwnerRef inp.owner_name inp.owner_uid)))

/-- The serialized bytes of the child specifications, in order. -/
def desired_serialized (inp : DesiredInputs) : List String :=
  (desired_pods inp).map (fun p => serializePod p.2)

/-! ## Support lemmas about the apply loop -/

theorem apply_pods_all_ok (patch : String → Except String Unit) (meta : ObjectMeta)
    (name : String) (labels : List (String × String)) (version : ZooKeeperVersion)
    (n u : String) (hname : meta.name = some n) (huid : meta.uid = some u) :
    ∀ idxs : List Nat, (∀ i ∈ idxs, patch (podName name i) = .ok ()) →
    apply_pods patch meta name labels version idxs =
      (idxs.map (fun i =>
        (podName name i, make_pod (podName name i) labels version (baseOwnerRef n u))),
       .ok ()) := by
  intro idxs
  induction idxs with
  | nil => intro _; rfl
  | cons i rest ih =>
    intro hok
    have hi : patch (podName name i) = .ok () := hok i (by simp)
    have hrest : ∀ j ∈ rest, patch (podName name j) = .ok () := by
      intro j hj; exact hok j (by simp [hj])
    simp only [apply_pods, object_to_owner_reference, hname, huid, hi,
      ih hrest, List.map_cons]
    rfl

theorem apply_pods_first_fail (patch : String → Except String Unit) (meta : ObjectMeta)
    (name : String) (labels : List (String × String)) (version : ZooKeeperVersion)
    (n u src : String) (hname : meta.name = some n) (huid : meta.uid = some u) :
    ∀ (idxs1 : List Nat) (k : Nat) (idxs2 : List Nat),
    (∀ i ∈ idxs1, patch (podName name i) = .ok ()) →
    patch (podName name k) = .error src →
    apply_pods patch meta name labels version (idxs1 ++ k :: idxs2) =
      (idxs1.map (fun i =>
        (podName name i, make_pod (podName name i) labels version (baseOwnerRef n u)))
       ++ [(podName name k, make_pod (podName name k) labels version (baseOwnerRef n u))],
       .error (.PodPatchFailed src)) := by
  intro idxs1
  induction idxs1 with
  | nil =>
    intro k idxs2 _ hfail
    simp only [List.nil_append, apply_pods, object_to_owner_reference, hname, huid,
      hfail, List.map_nil]
    rfl
  | cons i rest ih =>
    intro k idxs2 hok hfail
    have hi : patch (podName name i) = .ok () := hok i (by simp)
    have hrest : ∀ j ∈ rest, patch (podName name j) = .ok () := by
      intro j hj; exact hok j (by simp [hj])
    have hih := ih k idxs2 hrest hfail
    rw [List.cons_append]
    simp only [apply_pods, object_to_owner_reference, hname, huid, hi,
      List.append_eq, hih, List.map_cons]
    rfl

theorem apply_pods_mem_owner_refs (patch : String → Except String Unit)
    (meta : ObjectMeta) (name : String) (labels : List (String × String))
    (version : ZooKeeperVersion) (n u : String)
    (hname : meta.name = some n) (huid : meta.uid = some u) :
    ∀ (idxs : List Nat) (entry : String × Pod),
    entry ∈ (apply_pods patch meta name labels version idxs).1 →
    entry.2.metadata.owner_references =
      some [{ api_version := ZK_API_VERSION, kind := ZK_KIND, name := n, uid := u,
              controller := some true, block_owner_deletion := none }] := by
  intro idxs
  induction idxs with
  | nil => intro entry h; simp [apply_pods] at h
  | cons i rest ih =>
    intro entry hmem
    simp only [apply_pods, object_to_owner_reference, hname, huid] at hmem
    cases hp : patch (podName name i) with
    | error e =>
      rw [hp] at hmem
      simp at hmem
      rw [hmem]
      rfl
    | ok _ =>
      rw [hp] at hmem
      simp at hmem
      rcases hmem with h | h
      · rw [h]; rfl
      · exact ih entry h

/-- Counts a successful outcome: `1` for `ok`, `0` for an error or a panic. -/
def succFlag {α : Type} : Outcome α → Nat
  | .ok _ => 1
  | .err _ => 0
  | .aborted _ => 0

theorem reconcile_shape (ctx : Ctx) (zk : ZooKeeperCluster) :
    (reconcile ctx zk).2.last_event_writes = [ctx.now] ∧
    (reconcile ctx zk).2.counter_incs = succFlag (reconcile ctx zk).1 ∧
    (∀ act, (reconcile ctx zk).1 = .ok act → act = { requeue_after := some 1800 }) := by
  unfold reconcile
  cases hn : zk.metadata.name with
  | none => simp [succFlag]
  | some name =>
    cases hns : zk.metadata.ns with
    | none => simp [succFlag]
    | some ns =>
      simp only [handle_deletion]
      cases hsp : ctx.status_patch_result with
      | error e => simp [succFlag]
      | ok u =>
        cases hpr : (apply_pods ctx.pod_patch_result zk.metadata name
            [("zookeeper-name", name)] zk.spec.version
            (List.range zk.spec.replicas.toNat)).2 with
        | error e => simp [hpr, succFlag]
        | ok u2 =>
          simp [hpr, succFlag]

theorem reconcile_success_run (ctx : Ctx) (zk : ZooKeeperCluster)
    (name ns uid : String)
    (hname : zk.metadata.name = some name) (hns : zk.metadata.ns = some ns)
    (huid : zk.metadata.uid = some uid)
    (hsp : ctx.status_patch_result = .ok ())
    (hpods : ∀ i ∈ List.range zk.spec.replicas.toNat,
      ctx.pod_patch_result (podName name i) = .ok ()) :
    reconcile ctx zk =
      (.ok { requeue_after := some 1800 },
       { last_event_writes := [ctx.now],
         status_patches := [(name, { is_bad := false })],
         pod_applies := (List.range zk.spec.replicas.toNat).map (fun i =>
           (podName name i,
            make_pod (podName name i) [("zookeeper-name", name)] zk.spec.version
              (baseOwnerRef name uid))),
         meta_patches := [],
         counter_incs := 1 }) := by
  have hap := apply_pods_all_ok ctx.pod_patch_result zk.metadata name
    [("zookeeper-name", name)] zk.spec.version name uid hname huid
    (List.range zk.spec.replicas.toNat) hpods
  unfold reconcile
  rw [hname, hns]
  simp only [handle_deletion, hsp, hap]

theorem reconcile_pod_fail_run (ctx : Ctx) (zk : ZooKeeperCluster)
    (name ns uid src : String) (N k : Nat)
    (hname : zk.metadata.name = some name) (hns : zk.metadata.ns = some ns)
    (huid : zk.metadata.uid = some uid)
    (hsp : ctx.status_patch_result = .ok ())
    (hrep : zk.spec.replicas = (N : Int)) (hk : k < N)
    (hok : ∀ i, i < k → ctx.pod_patch_result (podName name i) = .ok ())
    (hfail : ctx.pod_patch_result (podName name k) = .error src) :
    reconcile ctx zk =
      (.err (.PodPatchFailed src),
       { last_event_writes := [ctx.now],
         status_patches := [(name, { is_bad := false })],
         pod_applies := (List.range (k + 1)).map (fun i =>
           (podName name i,
            make_pod (podName name i) [("zookeeper-name", name)] zk.spec.version
              (baseOwnerRef name uid))),
         meta_patches := [],
         counter_incs := 0 }) := by
  obtain ⟨m, hm⟩ : ∃ m, N = (k + 1) + m := ⟨N - (k + 1), by omega⟩
  have hdecomp : List.range zk.spec.replicas.toNat =
      List.range k ++ k :: (List.range m).map ((k + 1) + ·) := by
    rw [hrep, Int.toNat_natCast, hm, List.range_add, List.range_succ k]
    simp
  have hokr : ∀ i ∈ List.range k, ctx.pod_patch_result (podName name i) = .ok () := by
    intro i hi
    exact hok i (List.mem_range.mp hi)
  have hap := apply_pods_first_fail ctx.pod_patch_result zk.metadata name
    [("zookeeper-name", name)] zk.spec.version name uid src hname huid
    (List.range k) k ((List.range m).map ((k + 1) + ·)) hokr hfail
  unfold reconcile
  rw [hname, hns]
  simp only [handle_deletion, hsp, hdecomp, hap]
  rw [List.range_succ k, List.map_append]
  rfl

/-! ## Concrete fixtures -/

/-- Backend oracle in which every call succeeds; the clock reads 17. -/
def ctxOk : Ctx :=
  { now := 17, status_patch_result := .ok (),
    pod_patch_result := fun _ => .ok (), meta_patch_result := .ok () }

/-- An Active snapshot (spec scenario: `zk1` in `ns`, 3 replicas, no
finalizers, no deletion timestamp). -/
def zkActive : ZooKeeperCluster :=
  { metadata := { name := some ("zk1"), ns := some ("ns"), uid := some ("uid-1") },
    spec := { version := .v3_6_2, replicas := 3 } }

/-- A Deleting snapshot: deletion timestamp set, controller finalizer present. -/
def zkDeleting : ZooKeeperCluster :=
  { metadata := { name := some ("zk1"), ns := some ("ns"), uid := some ("uid-1"),
                  deletion_timestamp := some ("2021-01-01T00:00:00Z"),
                  finalizers := some [FINALIZER] },
    spec := { version := .v3_6_2, replicas := 1 } }

/-- A snapshot with a name but no namespace. -/
def zkNoNs : ZooKeeperCluster :=
  { metadata := { name := some ("zk1"), uid := some ("uid-1") },
    spec := { version := .v3_6_2, replicas := 1 } }

/-- Oracle failing exactly the apply of pod `zk1-1` with source `boom`. -/
def ctxFailZk1 : Ctx :=
  { now := 17, status_patch_result := .ok (),
    pod_patch_result := fun s => if s = "zk1-1" then .error ("boom") else .ok (),
    meta_patch_result := .ok () }

/-- Oracle failing exactly the apply of pod `aa-1` with source `boom`. -/
def ctxFailAa : Ctx :=
  { now := 17, status_patch_result := .ok (),
    pod_patch_result := fun s => if s = "aa-1" then .error ("boom") else .ok (),
    meta_patch_result := .ok () }

/-- An Active snapshot named `aa` (children named `aa-0`, `aa-1`, `aa-2`). -/
def zkAa : ZooKeeperCluster :=
  { metadata := { name := some ("aa"), ns := some ("ns"), uid := some ("uid-2") },
    spec := { version := .v3_6_2, replicas := 3 } }

/-! ## Claim theorems -/

/-- C1: the claim fails on the code.  On a snapshot with `deletionTimestamp`
set and the controller's finalizer token present, one reconcile does not
remove the token (no metadata patch is issued at all), does patch status and
apply children, and returns requeue-after-1800 instead of "no scheduled
requeue": `handle_deletion` opens with `return Ok(false);` (manager.rs line
232), making the whole deletion branch (lines 233-263) unreachable. -/
theorem c1_deleting_snapshot_not_handled :
    zkDeleting.metadata.deletion_timestamp = some ("2021-01-01T00:00:00Z") ∧
    zkDeleting.metadata.finalizers = some [FINALIZER] ∧
    (reconcile ctxOk zkDeleting).1 = .ok { requeue_after := some 1800 } ∧
    (reconcile ctxOk zkDeleting).2.meta_patches = [] ∧
    (reconcile ctxOk zkDeleting).2.status_patches = [("zk1", { is_bad := false })] ∧
    (reconcile ctxOk zkDeleting).2.pod_applies.map Prod.fst = ["zk1-0"] := by
  decide

/-- C2: the claim fails on the code.  On an Active snapshot (deletion
timestamp unset) whose finalizers list lacks the controller's token, one
reconcile issues no metadata write whatsoever, so the token occurs zero
times afterwards rather than exactly once: the finalizer-add branch
(manager.rs lines 264-283) is unreachable behind the `return Ok(false);`
short-circuit (line 232). -/
theorem c2_finalizer_add_never_issued :
    zkActive.metadata.deletion_timestamp = none ∧
    zkActive.metadata.finalizers = none ∧
    (reconcile ctxOk zkActive).2.meta_patches = [] ∧
    (reconcile ctxOk zkActive).1 = .ok { requeue_after := some 1800 } := by
  decide

/-- C3: the Error Policy is a constant function mapping every error to the
requeue-after-360-seconds directive (manager.rs lines 287-292), and every
reconcile invocation that completes with `Ok` returns the
requeue-after-`3600 / 2` = 1800-seconds directive (lines 219-221). -/
theorem c3_error_policy_constant_success_requeue :
    (∀ e : Error, error_policy e = { requeue_after := some 360 }) ∧
    (∀ (ctx : Ctx) (zk : ZooKeeperCluster) (act : ReconcilerAction),
      (reconcile ctx zk).1 = .ok act → act.requeue_after = some 1800) := by
  constructor
  · intro e; rfl
  · intro ctx zk act h
    rw [(reconcile_shape ctx zk).2.2 act h]

/-- C3 witness: the error policy at a concrete error, and the directive of a
concrete successful reconcile. -/
theorem c3_witness :
    error_policy (.SerializationFailed ("boom")) = { requeue_after := some 360 } ∧
    ({ requeue_after := some 1800 } : ReconcilerAction).requeue_after = some 1800 :=
  ⟨c3_error_policy_constant_success_requeue.1 (.SerializationFailed ("boom")),
   c3_error_policy_constant_success_requeue.2 ctxOk zkActive
     { requeue_after := some 1800 } (by decide)⟩

/-- C7: on every invocation — successful, failed, or panicking — exactly one
write of `State.last_event` with the current clock value is recorded, and it
is the first recorded action (manager.rs line 123 precedes every other
statement); the `handled_events` counter is incremented exactly once when
the run returns `Ok` (line 216) and never when it returns an error or
aborts. -/
theorem c7_observable_state (ctx : Ctx) (zk : ZooKeeperCluster) :
    (reconcile ctx zk).2.last_event_writes = [ctx.now] ∧
    (reconcile ctx zk).2.counter_incs = succFlag (reconcile ctx zk).1 :=
  ⟨(reconcile_shape ctx zk).1, (reconcile_shape ctx zk).2.1⟩

/-- C9: on every snapshot whose namespace is unset the reconcile aborts with
a panic (`.expect("ZooKeeperCluster is namespaced")`, manager.rs line 125;
when the name is also unset, `Meta::name` panics first) instead of returning
an error value; the function is total only over namespaced snapshots. -/
theorem c9_missing_namespace_panics (ctx : Ctx) (zk : ZooKeeperCluster)
    (hns : zk.metadata.ns = none) :
    ∃ msg, (reconcile ctx zk).1 = .aborted msg := by
  unfold reconcile
  cases hn : zk.metadata.name with
  | none => exact ⟨"kube objects must have names", rfl⟩
  | some name =>
    rw [hns]
    exact ⟨"ZooKeeperCluster is namespaced", rfl⟩

/-- C9 witness: the concrete namespace-less snapshot aborts. -/
theorem c9_witness : ∃ msg, (reconcile ctxOk zkNoNs).1 = .aborted msg :=
  c9_missing_namespace_panics ctxOk zkNoNs rfl

/-- C4: for a resource with `replicaCount = N ≥ 0`, a successful non-deleting
reconcile applies exactly `N` child specifications (the desired-state
sequence), named `"{resourceName}-{index}"` for indices `0..N` with
pairwise-distinct names; `N = 0` yields no child applies (manager.rs lines
159-212). -/
theorem c4_child_count_and_names (ctx : Ctx) (zk : ZooKeeperCluster)
    (name ns uid : String) (N : Nat)
    (hname : zk.metadata.name = some name) (hns : zk.metadata.ns = some ns)
    (huid : zk.metadata.uid = some uid)
    (hrep : zk.spec.replicas = (N : Int))
    (hsp : ctx.status_patch_result = .ok ())
    (hpods : ∀ i, i < N → ctx.pod_patch_result (podName name i) = .ok ()) :
    (reconcile ctx zk).1 = .ok { requeue_after := some 1800 } ∧
    (reconcile ctx zk).2.pod_applies =
      desired_pods { name := name, ns := ns, version := zk.spec.version,
                     replicaCount := (N : Int), owner_name := name,
                     owner_uid := uid } ∧
    (reconcile ctx zk).2.pod_applies.length = N ∧
    (reconcile ctx zk).2.pod_applies.map Prod.fst =
      (List.range N).map (podName name) ∧
    ((reconcile ctx zk).2.pod_applies.map Prod.fst).Nodup ∧
    (N = 0 → (reconcile ctx zk).2.pod_applies = []) := by
  have hpods' : ∀ i ∈ List.range zk.spec.replicas.toNat,
      ctx.pod_patch_result (podName name i) = .ok () := by
    intro i hi
    rw [hrep, Int.toNat_natCast] at hi
    exact hpods i (List.mem_range.mp hi)
  have hrun := reconcile_success_run ctx zk name ns uid hname hns huid hsp hpods'
  have htn : zk.spec.replicas.toNat = N := by rw [hrep, Int.toNat_natCast]
  rw [hrun]
  refine ⟨rfl, ?_, ?_, ?_, ?_, ?_⟩
  · simp [desired_pods, htn]
  · simp [htn]
  · simp [htn]
  · have hinj : Function.Injective (podName name) := fun i j h => podName_inj name i j h
    simp only [List.map_map]
    have : (Prod.fst ∘ fun i =>
        (podName name i,
         make_pod (podName name i) [("zookeeper-name", name)] zk.spec.version
           (baseOwnerRef name uid))) = podName name := rfl
    rw [this]
    exact (List.nodup_range _).map hinj
  · intro h0
    simp [htn, h0]

/-- C4 witness: the concrete Active fixture (3 replicas, all applies
succeed) applies exactly the children `zk1-0`, `zk1-1`, `zk1-2`. -/
theorem c4_witness :
    (reconcile ctxOk zkActive).2.pod_applies.map Prod.fst =
      (List.range 3).map (podName ("zk1")) :=
  (c4_child_count_and_names ctxOk zkActive ("zk1") ("ns") ("uid-1") 3
    rfl rfl rfl rfl rfl (fun i _ => rfl)).2.2.2.1

/-- C5: Desired-State Compute is deterministic — any two calls with identical
`(name, namespace, version, replicaCount, owner name, owner UID)` inputs
yield byte-identical serialized child specifications.  (The compute is
embedded as a pure function of exactly these inputs, mirroring manager.rs
lines 156-208, which read nothing else — no clock or network access.) -/
theorem c5_desired_compute_deterministic (inp₁ inp₂ : DesiredInputs)
    (h : inp₁ = inp₂) :
    desired_serialized inp₁ = desired_serialized inp₂ :=
  congrArg desired_serialized h

/-- C5 witness: two calls at a concrete identical input agree. -/
theorem c5_witness :
    desired_serialized
      { name := "zk1", ns := "ns", version := .v3_6_2, replicaCount := 2,
        owner_name := "zk1", owner_uid := "uid-1" } =
    desired_serialized
      { name := "zk1", ns := "ns", version := .v3_6_2, replicaCount := 2,
        owner_name := "zk1", owner_uid := "uid-1" } :=
  c5_desired_compute_deterministic
    { name := "zk1", ns := "ns", version := .v3_6_2, replicaCount := 2,
      owner_name := "zk1", owner_uid := "uid-1" }
    { name := "zk1", ns := "ns", version := .v3_6_2, replicaCount := 2,
      owner_name := "zk1", owner_uid := "uid-1" }
    rfl

/-- C6 counterexample: the error returned by a failed child apply does not
wrap the failed child's identity.  Two runs that fail on different children
(`zk1-1` of resource `zk1` versus `aa-1` of resource `aa`) with the same
backend source error return equal error values
(`PodPatchFailed { source: "boom" }` — the snafu selector at manager.rs line
211 passes no pod name), so the failed child cannot be recovered from the
error. -/
theorem c6_counterexample :
    (reconcile ctxFailZk1 zkActive).1 = .err (.PodPatchFailed ("boom")) ∧
    (reconcile ctxFailAa zkAa).1 = .err (.PodPatchFailed ("boom")) ∧
    (reconcile ctxFailZk1 zkActive).1 = (reconcile ctxFailAa zkAa).1 ∧
    ((reconcile ctxFailZk1 zkActive).2.pod_applies.map Prod.fst ==
      (reconcile ctxFailAa zkAa).2.pod_applies.map Prod.fst) = false := by
  decide

/-- C6 (amended): if the apply of the child at index `k < N` fails, no child
with index greater than `k` is applied in that pass (the children applied are
exactly indices `0..k`, the failed call included), and the reconcile returns
an error of the pod-patch-failure class wrapping the backend failure — but
not the failed child's name (manager.rs lines 199-212). -/
theorem c6_amended_abort_on_failure (ctx : Ctx) (zk : ZooKeeperCluster)
    (name ns uid src : String) (N k : Nat)
    (hname : zk.metadata.name = some name) (hns : zk.metadata.ns = some ns)
    (huid : zk.metadata.uid = some uid)
    (hsp : ctx.status_patch_result = .ok ())
    (hrep : zk.spec.replicas = (N : Int)) (hk : k < N)
    (hok : ∀ i, i < k → ctx.pod_patch_result (podName name i) = .ok ())
    (hfail : ctx.pod_patch_result (podName name k) = .error src) :
    (reconcile ctx zk).1 = .err (.PodPatchFailed src) ∧
    (reconcile ctx zk).2.pod_applies.map Prod.fst =
      (List.range (k + 1)).map (podName name) := by
  have hrun := reconcile_pod_fail_run ctx zk name ns uid src N k
    hname hns huid hsp hrep hk hok hfail
  rw [hrun]
  exact ⟨rfl, by simp⟩

/-- C6 amended witness: the concrete run failing on the 2nd of 3 children
applies exactly children 0 and 1. -/
theorem c6_amended_witness :
    (reconcile ctxFailZk1 zkActive).1 = .err (.PodPatchFailed ("boom")) ∧
    (reconcile ctxFailZk1 zkActive).2.pod_applies.map Prod.fst =
      (List.range 2).map (podName ("zk1")) :=
  c6_amended_abort_on_failure ctxFailZk1 zkActive ("zk1") ("ns") ("uid-1")
    ("boom") 3 1 rfl rfl rfl rfl rfl (by decide)
    (by
      intro i hi
      interval_cases i
      · rfl)
    rfl

/-- C8: owner-reference construction fails exactly when the owner metadata
lacks a name or a UID (manager.rs lines 98-110); when both are present it
yields the owner's apiVersion, kind, name and UID, and every child pod the
reconciler applies carries exactly one owner reference — that reference with
`controller = true` (lines 163-167). -/
theorem c8_owner_reference_contract (meta : ObjectMeta) :
    ((∃ e, object_to_owner_reference meta = .error e) ↔
      (meta.name = none ∨ meta.uid = none)) ∧
    (∀ n u, meta.name = some n → meta.uid = some u →
      object_to_owner_reference meta = .ok (baseOwnerRef n u)) ∧
    (∀ (ctx : Ctx) (zk : ZooKeeperCluster) (n u : String),
      zk.metadata.name = some n → zk.metadata.uid = some u →
      ∀ entry ∈ (reconcile ctx zk).2.pod_applies,
        entry.2.metadata.owner_references =
          some [{ api_version := ZK_API_VERSION, kind := ZK_KIND, name := n,
                  uid := u, controller := some true,
                  block_owner_deletion := none }]) := by
  refine ⟨?_, ?_, ?_⟩
  · constructor
    · intro ⟨e, he⟩
      by_contra hcon
      push_neg at hcon
      obtain ⟨hn, hu⟩ := hcon
      obtain ⟨n, hn'⟩ := Option.ne_none_iff_exists'.mp hn
      obtain ⟨u, hu'⟩ := Option.ne_none_iff_exists'.mp hu
      simp [object_to_owner_reference, hn', hu'] at he
    · intro h
      rcases h with hn | hu
      · exact ⟨.MissingObjectKey (".metadata.name"),
          by simp [object_to_owner_reference, hn]⟩
      · cases hn : meta.name with
        | none => exact ⟨.MissingObjectKey (".metadata.name"),
            by simp [object_to_owner_reference, hn]⟩
        | some n => exact ⟨.MissingObjectKey (".metadata.backtrace"),
            by simp [object_to_owner_reference, hn, hu]⟩
  · intro n u hn hu
    simp [object_to_owner_reference, hn, hu, baseOwnerRef]
  · intro ctx zk n u hn hu entry hmem
    unfold reconcile at hmem
    rw [hn] at hmem
    cases hns : zk.metadata.ns with
    | none => rw [hns] at hmem; simp at hmem
    | some ns =>
      rw [hns] at hmem
      simp only [handle_deletion] at hmem
      cases hsp : ctx.status_patch_result with
      | error e => rw [hsp] at hmem; simp at hmem
      | ok _ =>
        rw [hsp] at hmem
        cases hpr : (apply_pods ctx.pod_patch_result zk.metadata n
            [("zookeeper-name", n)] zk.spec.version
            (List.range zk.spec.replicas.toNat)).2 with
        | error e =>
          rw [hpr] at hmem
          simp only at hmem
          exact apply_pods_mem_owner_refs ctx.pod_patch_result zk.metadata n
            [("zookeeper-name", n)] zk.spec.version n u hn hu
            (List.range zk.spec.replicas.toNat) entry hmem
        | ok _ =>
          rw [hpr] at hmem
          simp only at hmem
          exact apply_pods_mem_owner_refs ctx.pod_patch_result zk.metadata n
            [("zookeeper-name", n)] zk.spec.version n u hn hu
            (List.range zk.spec.replicas.toNat) entry hmem

/-- C8 witness: the contract applied at the concrete Active fixture. -/
theorem c8_witness :
    object_to_owner_reference zkActive.metadata =
      .ok (baseOwnerRef ("zk1") ("uid-1")) ∧
    (("zk1-0"),
      make_pod ("zk1-0") [("zookeeper-name", "zk1")] .v3_6_2
        (baseOwnerRef ("zk1") ("uid-1"))).2.metadata.owner_references =
      some [{ api_version := ZK_API_VERSION, kind := ZK_KIND, name := "zk1",
              uid := "uid-1", controller := some true,
              block_owner_deletion := none }] :=
  ⟨(c8_owner_reference_contract zkActive.metadata).2.1 ("zk1") ("uid-1") rfl rfl,
   (c8_owner_reference_contract zkActive.metadata).2.2 ctxOk zkActive
     ("zk1") ("uid-1") rfl rfl
     (("zk1-0"),
       make_pod ("zk1-0") [("zookeeper-name", "zk1")] .v3_6_2
         (baseOwnerRef ("zk1") ("uid-1")))
     (by decide)⟩

/-- C10: in every child specification the container image is
`"stackable/zookeeper:"` followed by the `{:?}` Debug rendering of the
version variant (manager.rs line 174) — `v3_6_2` / `v3_5_8` — and not the
declared serde wire-format version string `3.6.2` / `3.5.8`. -/
theorem c10_image_uses_debug_rendering :
    (∀ (pn : String) (labels : List (String × String)) (v : ZooKeeperVersion)
        (oref : OwnerReference),
      (make_pod pn labels v oref).spec.map
          (fun s => s.containers.map Container.image) =
        some [some ("stackable/zookeeper:" ++ v.debugName)]) ∧
    ZooKeeperVersion.debugName .v3_6_2 = "v3_6_2" ∧
    ZooKeeperVersion.debugName .v3_5_8 = "v3_5_8" ∧
    ZooKeeperVersion.wireName .v3_6_2 = "3.6.2" ∧
    ZooKeeperVersion.wireName .v3_5_8 = "3.5.8" ∧
    (∀ v : ZooKeeperVersion,
      (("stackable/zookeeper:" ++ v.debugName) ==
        ("stackable/zookeeper:" ++ v.wireName)) = false) := by
  refine ⟨?_, rfl, rfl, rfl, rfl, ?_⟩
  · intro pn labels v oref; rfl
  · intro v; cases v <;> decide
